import Mathlib

/-!
# Verification of the per-tenant Alertmanager configuration engine

Shallow embedding of `pkg/services/ngalert/notifier/alertmanager.go`:
the apply/save operations of the per-tenant Alertmanager instance
(`applyConfig`, `applyAndMarkConfig`, `ApplyConfig`, `SaveAndApplyConfig`,
`SaveAndApplyDefaultConfig`), the matcher-usage aggregation
(`aggregateRouteMatchers`, `aggregateInhibitMatchers`,
`updateConfigMetrics`), the 48-bit hash metric (`hashAsMetricValue`) and
`AlertValidationError.Error`.

External collaborators that the file under verification calls but whose
code lives outside the verified sources (the store, the template
persister, the JSON serializer, the embedded Grafana Alertmanager base)
are modelled as explicit oracle inputs, so every theorem quantifies over
their possible outcomes.
-/

set_option autoImplicit false

namespace NGAlert

/-- Byte strings (`[]byte` in the source): lists of byte values. -/
abbrev Bytes := List Nat

/-- Modelled from the spec: stands for `crypto/md5.Sum`, producing a
16-byte digest. The claims under verification depend only on comparing
digests of byte strings for equality, never on MD5 internals, so a simple
executable 128-bit fold is used as the digest function. -/
def md5Sum (data : Bytes) : Bytes :=
  let h : Nat :=
    data.foldl (fun h b => (h * 131 + b + 7) % 2 ^ 128) (data.length % 2 ^ 128)
  (List.range 16).map (fun i => h / 256 ^ i % 256)

/-- Modelled from the spec: stands for
`alertingTemplates.DefaultTemplateString`, the baseline template content
injected into every configuration. Only its identity matters here. -/
def DefaultTemplateString : String := "default template content"

/-- `definitions.Route`: a recursive route-tree node carrying the four
matcher styles and ordered child routes. Only the matcher lists and the
children are relevant to the verified operations. -/
inductive Route where
  | node (Matchers : List String) (MatchRE : List String)
      (Match : List String) (ObjectMatchers : List String)
      (Routes : List Route)

/-- `config.InhibitRule`: the six matcher lists read by
`aggregateInhibitMatchers`. -/
structure InhibitRule where
  SourceMatchers : List String
  TargetMatchers : List String
  SourceMatchRE : List String
  TargetMatchRE : List String
  SourceMatch : List String
  TargetMatch : List String
deriving DecidableEq

/-- `AggregateMatchersUsage` from the source: counters for the four
matcher styles. -/
structure AggregateMatchersUsage where
  Matchers : Nat
  MatchRE : Nat
  Match : Nat
  ObjectMatchers : Nat
deriving DecidableEq

mutual

/-- `aggregateRouteMatchers`: adds the root's matcher counts to the
accumulator and recurses over the child routes, exactly as the Go
method walks `r.Routes`. -/
def aggregateRouteMatchers : Route → AggregateMatchersUsage → AggregateMatchersUsage
  | .node ms mre mm om rs, amu =>
      aggregateRouteList rs
        { Matchers := amu.Matchers + ms.length
          MatchRE := amu.MatchRE + mre.length
          Match := amu.Match + mm.length
          ObjectMatchers := amu.ObjectMatchers + om.length }

/-- The `for _, next := range r.Routes` loop of `aggregateRouteMatchers`. -/
def aggregateRouteList : List Route → AggregateMatchersUsage → AggregateMatchersUsage
  | [], amu => amu
  | r :: rs, amu => aggregateRouteList rs (aggregateRouteMatchers r amu)

end

/-- `aggregateInhibitMatchers`: folds the six matcher lists of every
inhibit rule into the accumulator. -/
def aggregateInhibitMatchers (rules : List InhibitRule)
    (amu : AggregateMatchersUsage) : AggregateMatchersUsage :=
  rules.foldl
    (fun amu r =>
      { amu with
        Matchers := amu.Matchers + r.SourceMatchers.length + r.TargetMatchers.length
        MatchRE := amu.MatchRE + r.SourceMatchRE.length + r.TargetMatchRE.length
        Match := amu.Match + r.SourceMatch.length + r.TargetMatch.length })
    amu

/-- Componentwise sum of matcher-usage counters (specification side). -/
def amuAdd (a b : AggregateMatchersUsage) : AggregateMatchersUsage :=
  { Matchers := a.Matchers + b.Matchers
    MatchRE := a.MatchRE + b.MatchRE
    Match := a.Match + b.Match
    ObjectMatchers := a.ObjectMatchers + b.ObjectMatchers }

mutual

/-- Specification-side count: per-style matcher totals over the root and
all descendant routes of a tree. -/
def routeTotals : Route → AggregateMatchersUsage
  | .node ms mre mm om rs =>
      amuAdd
        { Matchers := ms.length, MatchRE := mre.length
          Match := mm.length, ObjectMatchers := om.length }
        (routeListTotals rs)

/-- Specification-side count over a list of route trees. -/
def routeListTotals : List Route → AggregateMatchersUsage
  | [] => { Matchers := 0, MatchRE := 0, Match := 0, ObjectMatchers := 0 }
  | r :: rs => amuAdd (routeTotals r) (routeListTotals rs)

end

/-- `binary.LittleEndian.Uint64`: the unsigned little-endian integer of
an 8-byte buffer. -/
def littleEndianUint64 (bs : Bytes) : Nat :=
  (bs.take 8).foldr (fun b acc => b + 256 * acc) 0

/-- `hashAsMetricValue`: keeps the first 6 bytes of the 16-byte digest,
zero-pads them to 8 bytes, and reads the result as a little-endian
unsigned integer (the source then converts that integer to `float64`;
every value below `2^53` converts exactly, so the integer itself is the
faithful model of the returned metric value). -/
def hashAsMetricValue (data : Bytes) : Nat :=
  let smallSum := data.take 6
  let bytes := smallSum ++ List.replicate (8 - smallSum.length) 0
  littleEndianUint64 bytes

/-- Specification-side little-endian value of a byte list. -/
def leValue : Bytes → Nat
  | [] => 0
  | b :: bs => b + 256 * leValue bs

/-- `AlertValidationError`: parallel lists of submitted alerts and their
validation errors (errors modelled by their messages). -/
structure AlertValidationError where
  Alerts : List String
  Errors : List String
deriving DecidableEq

/-- `AlertValidationError.Error`: the first error message followed by
`";" + msg` for each remaining error; empty string when there are no
errors. -/
def AlertValidationError.Error (e : AlertValidationError) : String :=
  match e.Errors with
  | [] => ""
  | first :: rest => rest.foldl (fun errMsg x => errMsg ++ ";" ++ x) first

/-- Specification-side join of messages with a `";"` separator and no
trailing separator. -/
def joinSemicolons : List String → String
  | [] => ""
  | [x] => x
  | x :: y :: rest => x ++ ";" ++ joinSemicolons (y :: rest)

/-- `definitions.PostableApiAlertingConfig` (the `AlertmanagerConfig`
field of a user configuration): the route tree, inhibit rules and the
`Templates` path list that `applyConfig` overwrites. -/
structure PostableApiAlertingConfig where
  Route : Route
  InhibitRules : List InhibitRule
  Templates : List String

/-- `definitions.PostableUserConfig`: a user configuration document. A Go
`map[string]string` distinguishes nil from empty, hence the `Option`
around the association list. -/
structure PostableUserConfig where
  TemplateFiles : Option (List (String × String))
  AlertmanagerConfig : PostableApiAlertingConfig

/-- Go map read: first binding of a key in the association list. -/
def mapLookup (m : List (String × String)) (k : String) : Option String :=
  match m with
  | [] => none
  | (k1, v) :: rest => if k1 = k then some v else mapLookup rest k

/-- Go map write `m[k] = v`: replace the binding of `k` or append it. -/
def mapInsert (m : List (String × String)) (k v : String) :
    List (String × String) :=
  match m with
  | [] => [(k, v)]
  | (k1, v1) :: rest =>
      if k1 = k then (k, v) :: rest else (k1, v1) :: mapInsert rest k v

/-- The gauges set by `updateConfigMetrics`
(`metrics.AlertmanagerConfigMetrics`). -/
structure ConfigMetrics where
  Matchers : Nat
  MatchRE : Nat
  Match : Nat
  ObjectMatchers : Nat
  ConfigHash : Nat
deriving DecidableEq

/-- The observable state of the embedded Grafana Alertmanager base plus
the configuration metrics. `configHash` models `Base.ConfigHash()`, the
16-byte digest of the currently active raw configuration; modelled from
the spec: a successful `Base.ApplyConfig` activates the new pipeline and
makes `ConfigHash()` return the digest of the applied raw bytes, and a
failed one leaves the previous configuration active and untouched. -/
structure AMState where
  configHash : Bytes
  metrics : ConfigMetrics
deriving DecidableEq

/-- Observable calls the apply path makes on external collaborators. -/
inductive Event where
  | persistTemplates
  | baseApplyConfig (rawConfig : Bytes)
  | metricsUpdated
  | markApplied (orgID : Int) (configurationHash : String)
deriving DecidableEq

/-- Outcomes of the external collaborators consulted by `applyConfig`,
quantified over in every theorem: `json.Marshal(cfg.AlertmanagerConfig)`
(consulted only when the caller passed no raw bytes), `PersistTemplates`
(returns the on-disk paths and whether the template set changed), and
`Base.ApplyConfig` (integration build / pipeline swap). -/
structure ApplyEnv where
  marshalResult : Except String Bytes
  persistResult : Except String (List String × Bool)
  baseApplyResult : Except String Unit

/-- `updateConfigMetrics`: recomputes the aggregate matcher usage from
the route tree and the inhibit rules and publishes the gauges together
with the 48-bit truncation of the active configuration hash. -/
def updateConfigMetrics (st : AMState) (cfg : PostableUserConfig) : AMState :=
  let amu :=
    aggregateInhibitMatchers cfg.AlertmanagerConfig.InhibitRules
      (aggregateRouteMatchers cfg.AlertmanagerConfig.Route
        { Matchers := 0, MatchRE := 0, Match := 0, ObjectMatchers := 0 })
  { st with
    metrics :=
      { Matchers := amu.Matchers
        MatchRE := amu.MatchRE
        Match := amu.Match
        ObjectMatchers := amu.ObjectMatchers
        ConfigHash := hashAsMetricValue st.configHash } }

/-- Everything `applyConfig` produces: the `(changed, err)` return pair,
the resulting base state, the configuration object after its in-place
mutations, the raw bytes whose digest was compared against the active
hash (when execution got that far), and the calls made on external
collaborators. -/
structure ApplyResult where
  changed : Bool
  err : Option String
  state : AMState
  cfg : PostableUserConfig
  hashedRaw : Option Bytes
  events : List Event

/-- `applyConfig(cfg, rawConfig)`: serializes the configuration when no
raw bytes were supplied, compares the digest of the raw bytes with the
active hash, injects the default template, persists templates and
overwrites `cfg.AlertmanagerConfig.Templates` with the on-disk paths,
returns `(false, nil)` when neither configuration nor templates changed,
and otherwise swaps the pipeline via `Base.ApplyConfig` and republishes
the configuration metrics. -/
def applyConfig (env : ApplyEnv) (st : AMState) (cfg : PostableUserConfig)
    (rawConfig : Option Bytes) : ApplyResult :=
  match (match rawConfig with
          | none => env.marshalResult
          | some b => Except.ok b) with
  | .error e =>
      { changed := false, err := some e, state := st, cfg := cfg
        hashedRaw := none, events := [] }
  | .ok raw =>
      let amConfigChanged : Bool := st.configHash != md5Sum raw
      let templateFiles :=
        match cfg.TemplateFiles with
        | none => ([] : List (String × String))
        | some m => m
      let templateFiles := mapInsert templateFiles "__default__.tmpl" DefaultTemplateString
      let cfg := { cfg with TemplateFiles := some templateFiles }
      match env.persistResult with
      | .error e =>
          { changed := false, err := some e, state := st, cfg := cfg
            hashedRaw := some raw, events := [.persistTemplates] }
      | .ok (paths, templatesChanged) =>
          let cfg :=
            { cfg with
              AlertmanagerConfig :=
                { cfg.AlertmanagerConfig with Templates := paths } }
          if !amConfigChanged && !templatesChanged then
            { changed := false, err := none, state := st, cfg := cfg
              hashedRaw := some raw, events := [.persistTemplates] }
          else
            match env.baseApplyResult with
            | .error e =>
                { changed := false, err := some e, state := st, cfg := cfg
                  hashedRaw := some raw
                  events := [.persistTemplates, .baseApplyConfig raw] }
            | .ok _ =>
                let st := updateConfigMetrics { st with configHash := md5Sum raw } cfg
                { changed := true, err := none, state := st, cfg := cfg
                  hashedRaw := some raw
                  events := [.persistTemplates, .baseApplyConfig raw, .metricsUpdated] }

/-- `applyAndMarkConfig`: applies a configuration and, only when it was
applied without error and actually changed, asks the store to mark it as
applied by hash (`markResult` is the store's outcome). -/
def applyAndMarkConfig (env : ApplyEnv) (st : AMState) (orgID : Int)
    (hash : String) (cfg : PostableUserConfig) (rawConfig : Option Bytes)
    (markResult : Option String) : Option String × ApplyResult :=
  let r := applyConfig env st cfg rawConfig
  match r.err with
  | some e => (some e, r)
  | none =>
      if r.changed then
        (markResult, { r with events := r.events ++ [.markApplied orgID hash] })
      else
        (none, r)

/-- `models.AlertConfiguration`: the database record loaded on
startup/refresh. -/
structure AlertConfiguration where
  AlertmanagerConfiguration : Bytes
  ConfigurationHash : String

/-- `ApplyConfig(dbCfg)`: parses the persisted record (`loadResult` is
the outcome of `Load`, which lives outside the verified sources) and
applies it under the lock via `applyAndMarkConfig`, wrapping errors. -/
def ApplyConfig (env : ApplyEnv) (st : AMState) (orgID : Int)
    (loadResult : Except String PostableUserConfig)
    (dbCfg : AlertConfiguration) (markResult : Option String) :
    Option String × AMState × List Event :=
  match loadResult with
  | .error e => (some ("failed to parse Alertmanager config: " ++ e), st, [])
  | .ok cfg =>
      let res := applyAndMarkConfig env st orgID dbCfg.ConfigurationHash cfg none markResult
      match res.1 with
      | some e => (some ("unable to apply configuration: " ++ e), res.2.state, res.2.events)
      | none => (none, res.2.state, res.2.events)

/-- `models.SaveAlertmanagerConfigurationCmd`: the save command handed to
the store (the configuration is stored as the string of the serialized
bytes). -/
structure SaveAlertmanagerConfigurationCmd where
  AlertmanagerConfiguration : Bytes
  ConfigurationVersion : String
  Default : Bool
  OrgID : Int

/-- Result of the two save-and-apply operations: the returned error, the
resulting base state, the save command passed to the store (when one
was built), and the inner `applyConfig` result (when the callback ran). -/
structure SaveApplyResult where
  err : Option String
  state : AMState
  savedCmd : Option SaveAlertmanagerConfigurationCmd
  applyResult : Option ApplyResult

/-- `SaveAndApplyConfig(cfg)`: serializes the configuration once, builds
the save command from those bytes, and runs the combined
database-save-then-apply. Modelled from the spec:
`Store.SaveAlertmanagerConfigurationWithCallback` performs the database
write (`saveDbResult` is its own outcome), runs the callback only when
the write succeeded, and returns a non-nil error when either the write
or the callback failed (rolling the write back in the latter case). -/
def SaveAndApplyConfig (env : ApplyEnv) (st : AMState) (orgID : Int)
    (cfg : PostableUserConfig) (marshalUserResult : Except String Bytes)
    (saveDbResult : Option String) : SaveApplyResult :=
  match marshalUserResult with
  | .error e =>
      { err := some ("failed to serialize to the Alertmanager configuration: " ++ e)
        state := st, savedCmd := none, applyResult := none }
  | .ok rawConfig =>
      let cmd : SaveAlertmanagerConfigurationCmd :=
        { AlertmanagerConfiguration := rawConfig
          ConfigurationVersion := "v1"
          Default := false
          OrgID := orgID }
      match saveDbResult with
      | some e => { err := some e, state := st, savedCmd := some cmd, applyResult := none }
      | none =>
          let r := applyConfig env st cfg (some rawConfig)
          { err := r.err, state := r.state, savedCmd := some cmd, applyResult := some r }

/-- `SaveAndApplyDefaultConfig()`: builds the default-configuration save
command, parses the default document (`loadResult` is the outcome of
`Load`), and runs the combined database-save-then-apply. The source's
error branch after `SaveAlertmanagerConfigurationWithCallback` executes
`outerErr = nil` — not `outerErr = err` as the sibling
`SaveAndApplyConfig` does — so a save/apply failure is discarded and the
operation returns nil; the embedding reproduces this faithfully. -/
def SaveAndApplyDefaultConfig (env : ApplyEnv) (st : AMState) (orgID : Int)
    (defaultConfiguration : Bytes)
    (loadResult : Except String PostableUserConfig)
    (saveDbResult : Option String) : SaveApplyResult :=
  match loadResult with
  | .error e => { err := some e, state := st, savedCmd := none, applyResult := none }
  | .ok cfg =>
      let cmd : SaveAlertmanagerConfigurationCmd :=
        { AlertmanagerConfiguration := defaultConfiguration
          ConfigurationVersion := "v1"
          Default := true
          OrgID := orgID }
      match saveDbResult with
      | some _ =>
          { err := none, state := st, savedCmd := some cmd, applyResult := none }
      | none =>
          let r := applyConfig env st cfg (some defaultConfiguration)
          { err := none, state := r.state, savedCmd := some cmd, applyResult := some r }

mutual

theorem aggregateRouteMatchers_eq (r : Route) (amu : AggregateMatchersUsage) :
    aggregateRouteMatchers r amu = amuAdd amu (routeTotals r) := by
  cases r with
  | node ms mre mm om rs =>
      rw [aggregateRouteMatchers, routeTotals, aggregateRouteList_eq]
      cases amu
      simp only [amuAdd, AggregateMatchersUsage.mk.injEq]
      omega

theorem aggregateRouteList_eq (rs : List Route) (amu : AggregateMatchersUsage) :
    aggregateRouteList rs amu = amuAdd amu (routeListTotals rs) := by
  cases rs with
  | nil =>
      cases amu
      simp [aggregateRouteList, routeListTotals, amuAdd]
  | cons r rs =>
      rw [aggregateRouteList, aggregateRouteList_eq rs, aggregateRouteMatchers_eq r,
        routeListTotals]
      cases amu
      simp only [amuAdd, AggregateMatchersUsage.mk.injEq]
      omega

end

/-- The route tree of testable property 8: a root using 2 object
matchers with a single child using 1 legacy match and 1 regex match. -/
def exampleRoute : Route :=
  .node [] [] [] ["om1", "om2"] [.node [] ["re1"] ["m1"] [] []]

/-- C6: `aggregateRouteMatchers` adds to the accumulator, for each of the
four matcher styles, the sum over the root and all descendant routes of
the number of matchers of that style; in particular the tree with 2
object matchers at the root and 1 legacy match plus 1 regex match in its
single child yields Matchers=0, MatchRE=1, Match=1, ObjectMatchers=2. -/
theorem c6_aggregateRouteMatchers_totals :
    (∀ (r : Route) (amu : AggregateMatchersUsage),
        aggregateRouteMatchers r amu = amuAdd amu (routeTotals r)) ∧
    aggregateRouteMatchers exampleRoute
        { Matchers := 0, MatchRE := 0, Match := 0, ObjectMatchers := 0 } =
      { Matchers := 0, MatchRE := 1, Match := 1, ObjectMatchers := 2 } := by
  refine ⟨fun r amu => aggregateRouteMatchers_eq r amu, ?_⟩
  rfl

theorem foldr_eq_leValue (l : Bytes) :
    l.foldr (fun b acc => b + 256 * acc) 0 = leValue l := by
  induction l with
  | nil => rfl
  | cons b bs ih => simp [leValue, ih]

theorem leValue_append (l l' : Bytes) :
    leValue (l ++ l') = leValue l + 256 ^ l.length * leValue l' := by
  induction l with
  | nil => simp [leValue]
  | cons b bs ih =>
      simp only [List.cons_append, leValue, List.append_eq, ih, List.length_cons,
        pow_succ]
      ring

theorem leValue_lt (l : Bytes) (h : ∀ b ∈ l, b < 256) :
    leValue l < 256 ^ l.length := by
  induction l with
  | nil => simp [leValue]
  | cons b bs ih =>
      have hb : b < 256 := h b (List.mem_cons_self b bs)
      have hbs : leValue bs < 256 ^ bs.length :=
        ih (fun x hx => h x (List.mem_cons_of_mem b hx))
      calc b + 256 * leValue bs < 256 + 256 * leValue bs := by omega
        _ = 256 * (leValue bs + 1) := by ring
        _ ≤ 256 * 256 ^ bs.length := Nat.mul_le_mul_left _ hbs
        _ = 256 ^ (b :: bs).length := by
            rw [List.length_cons, pow_succ, Nat.mul_comm]

/-- C8: for every 16-byte digest, `hashAsMetricValue` is the unsigned
little-endian integer of the first 6 bytes (the remaining 10 bytes are
discarded), hence a value below `2^48`, which is below the `2^53` bound
under which every natural number converts to `float64` exactly. -/
theorem c8_hashAsMetricValue_truncates48 (data : Bytes)
    (hlen : data.length = 16) (hbytes : ∀ b ∈ data, b < 256) :
    hashAsMetricValue data = leValue (data.take 6) ∧
      hashAsMetricValue data < 2 ^ 48 ∧ (2 : Nat) ^ 48 ≤ 2 ^ 53 := by
  have hlen6 : (data.take 6).length = 6 := by
    rw [List.length_take, hlen]
    decide
  have heq : hashAsMetricValue data = leValue (data.take 6) := by
    have heq1 : hashAsMetricValue data
        = littleEndianUint64
            (data.take 6 ++ List.replicate (8 - (data.take 6).length) 0) := rfl
    rw [heq1, hlen6]
    unfold littleEndianUint64
    have h8 : ((data.take 6 ++ List.replicate (8 - 6) 0).take 8)
        = data.take 6 ++ List.replicate (8 - 6) 0 := by
      apply List.take_of_length_le
      simp [hlen6]
    rw [h8, foldr_eq_leValue, leValue_append, hlen6]
    have hrep : leValue (List.replicate (8 - 6) 0) = 0 := by decide
    rw [hrep]
    simp
  refine ⟨heq, ?_, by norm_num⟩
  rw [heq]
  have h256 : leValue (data.take 6) < 256 ^ 6 := by
    have := leValue_lt (data.take 6)
      (fun b hb => hbytes b (List.mem_of_mem_take hb))
    rwa [hlen6] at this
  calc leValue (data.take 6) < 256 ^ 6 := h256
    _ = 2 ^ 48 := by norm_num

/-- Closed instance of C8 at a concrete 16-byte digest. -/
theorem c8_hashAsMetricValue_truncates48_witness :
    hashAsMetricValue [1, 2, 3, 4, 5, 6, 7, 8, 9, 10, 11, 12, 13, 14, 15, 16]
        = leValue ([1, 2, 3, 4, 5, 6, 7, 8, 9, 10, 11, 12, 13, 14, 15, 16].take 6) ∧
      hashAsMetricValue [1, 2, 3, 4, 5, 6, 7, 8, 9, 10, 11, 12, 13, 14, 15, 16] < 2 ^ 48 ∧
      (2 : Nat) ^ 48 ≤ 2 ^ 53 :=
  c8_hashAsMetricValue_truncates48
    [1, 2, 3, 4, 5, 6, 7, 8, 9, 10, 11, 12, 13, 14, 15, 16]
    (by decide) (by decide)

theorem foldl_semicolon_join (xs : List String) (a : String) :
    xs.foldl (fun errMsg x => errMsg ++ ";" ++ x) a = joinSemicolons (a :: xs) := by
  induction xs generalizing a with
  | nil => rfl
  | cons x xs ih =>
      rw [List.foldl_cons, ih (a ++ ";" ++ x)]
      cases xs with
      | nil => rfl
      | cons y ys => simp [joinSemicolons, String.append_assoc]

/-- C9: `AlertValidationError.Error` returns the empty string when the
error list is empty and otherwise the messages in order joined by `";"`
with no trailing separator (the specification-side join). -/
theorem c9_alertValidationError_join (e : AlertValidationError) :
    e.Error = joinSemicolons e.Errors := by
  rcases e with ⟨al, errs⟩
  cases errs with
  | nil => rfl
  | cons f rest => exact foldl_semicolon_join rest f

theorem mapLookup_mapInsert (m : List (String × String)) (k v : String) :
    mapLookup (mapInsert m k v) k = some v := by
  induction m with
  | nil => simp [mapInsert, mapLookup]
  | cons p rest ih =>
      obtain ⟨k1, v1⟩ := p
      by_cases h : k1 = k <;> simp [mapInsert, mapLookup, h, ih]

theorem applyConfig_none_marshal_ok (env : ApplyEnv) (st : AMState)
    (cfg : PostableUserConfig) (b : Bytes)
    (hm : env.marshalResult = Except.ok b) :
    applyConfig env st cfg none = applyConfig env st cfg (some b) := by
  unfold applyConfig
  rw [hm]

theorem applyConfig_templateFiles_some (env : ApplyEnv) (st : AMState)
    (cfg : PostableUserConfig) (raw : Bytes) :
    (applyConfig env st cfg (some raw)).cfg.TemplateFiles
      = some (mapInsert (cfg.TemplateFiles.getD [])
          "__default__.tmpl" DefaultTemplateString) := by
  rcases hp : env.persistResult with e | ⟨paths, tch⟩ <;>
    rcases hb : env.baseApplyResult with e2 | u <;>
      rcases hcf : cfg.TemplateFiles with _ | m <;>
        simp [applyConfig, hp, hb, hcf, updateConfigMetrics] <;>
          split <;> simp

theorem applyConfig_templates_paths (env : ApplyEnv) (st : AMState)
    (cfg : PostableUserConfig) (raw : Bytes) (paths : List String) (tch : Bool)
    (hp : env.persistResult = Except.ok (paths, tch)) :
    (applyConfig env st cfg (some raw)).cfg.AlertmanagerConfig.Templates
      = paths := by
  rcases hb : env.baseApplyResult with e2 | u <;>
    simp [applyConfig, hp, hb, updateConfigMetrics] <;>
      split <;> simp

/-- C2: applying raw bytes whose digest equals the active configuration
hash, with the template set reported unchanged, returns `(false, nil)`
without invoking `Base.ApplyConfig`, without updating the matcher-usage
metrics and without touching the base state at all. -/
theorem c2_applyConfig_unchanged_noop (env : ApplyEnv) (st : AMState)
    (cfg : PostableUserConfig) (raw : Bytes) (paths : List String)
    (hHash : st.configHash = md5Sum raw)
    (hPersist : env.persistResult = Except.ok (paths, false)) :
    (applyConfig env st cfg (some raw)).changed = false ∧
      (applyConfig env st cfg (some raw)).err = none ∧
      (applyConfig env st cfg (some raw)).state = st ∧
      (∀ b, Event.baseApplyConfig b ∉ (applyConfig env st cfg (some raw)).events) ∧
      Event.metricsUpdated ∉ (applyConfig env st cfg (some raw)).events := by
  simp [applyConfig, hPersist, hHash]

/-- Sample route, configuration and states used to instantiate the
theorems at concrete inputs. -/
def sampleRoute : Route := .node [] [] [] [] []

def sampleCfg : PostableUserConfig :=
  { TemplateFiles := none
    AlertmanagerConfig := { Route := sampleRoute, InhibitRules := [], Templates := [] } }

def rawSample : Bytes := [1, 2, 3]

def zeroMetrics : ConfigMetrics :=
  { Matchers := 0, MatchRE := 0, Match := 0, ObjectMatchers := 0, ConfigHash := 0 }

def stUnchanged : AMState := { configHash := md5Sum rawSample, metrics := zeroMetrics }

def stZero : AMState := { configHash := md5Sum [], metrics := zeroMetrics }

def envUnchanged : ApplyEnv :=
  { marshalResult := .ok [0], persistResult := .ok ([], false), baseApplyResult := .ok () }

/-- Closed instance of C2: re-applying the active raw bytes is a no-op. -/
theorem c2_applyConfig_unchanged_noop_witness :
    (applyConfig envUnchanged stUnchanged sampleCfg (some rawSample)).changed = false ∧
      (applyConfig envUnchanged stUnchanged sampleCfg (some rawSample)).err = none ∧
      (applyConfig envUnchanged stUnchanged sampleCfg (some rawSample)).state = stUnchanged ∧
      (∀ b, Event.baseApplyConfig b
          ∉ (applyConfig envUnchanged stUnchanged sampleCfg (some rawSample)).events) ∧
      Event.metricsUpdated
        ∉ (applyConfig envUnchanged stUnchanged sampleCfg (some rawSample)).events :=
  c2_applyConfig_unchanged_noop envUnchanged stUnchanged sampleCfg rawSample [] rfl rfl

/-- C5: every invocation of the apply path that reaches the
template-persistence step (raw bytes supplied, or serialization
succeeded) leaves the configuration with a non-nil template file set
mapping `__default__.tmpl` to the default template — also when the user
supplied no templates and regardless of the persistence outcome. -/
theorem c5_default_template_always_present (env : ApplyEnv) (st : AMState)
    (cfg : PostableUserConfig) (rawConfig : Option Bytes)
    (hRaw : rawConfig ≠ none ∨ ∃ b, env.marshalResult = Except.ok b) :
    ∃ m, (applyConfig env st cfg rawConfig).cfg.TemplateFiles = some m ∧
      mapLookup m "__default__.tmpl" = some DefaultTemplateString := by
  have hkey : ∀ raw : Bytes,
      ∃ m, (applyConfig env st cfg (some raw)).cfg.TemplateFiles = some m ∧
        mapLookup m "__default__.tmpl" = some DefaultTemplateString := fun raw =>
    ⟨_, applyConfig_templateFiles_some env st cfg raw, mapLookup_mapInsert _ _ _⟩
  rcases rawConfig with _ | raw
  · rcases hRaw with h | ⟨b, hb⟩
    · exact absurd rfl h
    · rw [applyConfig_none_marshal_ok env st cfg b hb]
      exact hkey b
  · exact hkey raw

/-- Closed instance of C5 at a configuration whose template map is nil. -/
theorem c5_default_template_always_present_witness :
    ∃ m, (applyConfig envUnchanged stZero sampleCfg (some rawSample)).cfg.TemplateFiles
        = some m ∧
      mapLookup m "__default__.tmpl" = some DefaultTemplateString :=
  c5_default_template_always_present envUnchanged stZero sampleCfg (some rawSample)
    (Or.inl (by simp))

/-- Environment whose template persistence fails on disk. -/
def envPersistFail : ApplyEnv :=
  { marshalResult := .ok [9], persistResult := .error "disk full", baseApplyResult := .ok () }

/-- A configuration that already carries template paths. -/
def cfgOldTemplates : PostableUserConfig :=
  { TemplateFiles := none
    AlertmanagerConfig :=
      { Route := sampleRoute, InhibitRules := [], Templates := ["old.tmpl"] } }

/-- C10 counterexample: an invocation that reaches the
template-persistence step (the persist call is made) but in which
`PersistTemplates` fails leaves `cfg.AlertmanagerConfig.Templates`
untouched, contradicting the claim that it is overwritten in every
invocation that reaches that step. -/
theorem c10_persist_failure_keeps_templates :
    Event.persistTemplates
        ∈ (applyConfig envPersistFail stZero cfgOldTemplates (some [1])).events ∧
      (applyConfig envPersistFail stZero cfgOldTemplates
          (some [1])).cfg.AlertmanagerConfig.Templates = ["old.tmpl"] := by
  decide

/-- C10 as amended: in every invocation with raw bytes supplied, the
template-file map comes back non-nil with the `__default__.tmpl` entry
inserted, and `cfg.AlertmanagerConfig.Templates` is overwritten with the
on-disk paths exactly when template persistence succeeds — in
particular also when the apply reports the configuration unchanged. -/
theorem c10_applyConfig_mutates_cfg (env : ApplyEnv) (st : AMState)
    (cfg : PostableUserConfig) (raw : Bytes) :
    (∃ m, (applyConfig env st cfg (some raw)).cfg.TemplateFiles = some m ∧
        mapLookup m "__default__.tmpl" = some DefaultTemplateString) ∧
      (∀ paths tch, env.persistResult = Except.ok (paths, tch) →
        (applyConfig env st cfg (some raw)).cfg.AlertmanagerConfig.Templates = paths) :=
  ⟨⟨_, applyConfig_templateFiles_some env st cfg raw, mapLookup_mapInsert _ _ _⟩,
    fun paths tch hp => applyConfig_templates_paths env st cfg raw paths tch hp⟩

/-- Environment with a succeeding persist that reports new paths. -/
def envNewPaths : ApplyEnv :=
  { marshalResult := .ok [0], persistResult := .ok (["pathA"], true), baseApplyResult := .ok () }

/-- Closed instance of the amended C10. -/
theorem c10_applyConfig_mutates_cfg_witness :
    (∃ m, (applyConfig envNewPaths stZero sampleCfg (some [1])).cfg.TemplateFiles = some m ∧
        mapLookup m "__default__.tmpl" = some DefaultTemplateString) ∧
      (applyConfig envNewPaths stZero sampleCfg
          (some [1])).cfg.AlertmanagerConfig.Templates = ["pathA"] :=
  ⟨(c10_applyConfig_mutates_cfg envNewPaths stZero sampleCfg [1]).1,
    (c10_applyConfig_mutates_cfg envNewPaths stZero sampleCfg [1]).2 ["pathA"] true rfl⟩

theorem applyConfig_err_shape_some (mr : Except String Bytes)
    (pr : Except String (List String × Bool)) (br : Except String Unit)
    (st : AMState) (cfg : PostableUserConfig) (raw : Bytes) (e : String)
    (hErr : (applyConfig ⟨mr, pr, br⟩ st cfg (some raw)).err = some e) :
    (applyConfig ⟨mr, pr, br⟩ st cfg (some raw)).changed = false ∧
      (applyConfig ⟨mr, pr, br⟩ st cfg (some raw)).state = st := by
  rcases pr with pe | ⟨paths, tch⟩
  · exact ⟨rfl, rfl⟩
  · by_cases hc : (!(st.configHash != md5Sum raw) && !tch) = true
    · simp [applyConfig, hc] at hErr
    · rcases br with be | u
      · constructor <;> simp [applyConfig, hc]
      · simp [applyConfig, hc] at hErr

theorem applyConfig_err_shape (env : ApplyEnv) (st : AMState)
    (cfg : PostableUserConfig) (rawConfig : Option Bytes) (e : String)
    (hErr : (applyConfig env st cfg rawConfig).err = some e) :
    (applyConfig env st cfg rawConfig).changed = false ∧
      (applyConfig env st cfg rawConfig).state = st := by
  obtain ⟨mr, pr, br⟩ := env
  rcases rawConfig with _ | raw
  · rcases hmr : mr with me | mb
    · subst hmr
      exact ⟨rfl, rfl⟩
    · subst hmr
      rw [applyConfig_none_marshal_ok ⟨Except.ok mb, pr, br⟩ st cfg mb rfl] at hErr ⊢
      exact applyConfig_err_shape_some (Except.ok mb) pr br st cfg mb e hErr
  · exact applyConfig_err_shape_some mr pr br st cfg raw e hErr

theorem applyConfig_no_mark (env : ApplyEnv) (st : AMState)
    (cfg : PostableUserConfig) (rawConfig : Option Bytes) (o : Int) (h : String) :
    Event.markApplied o h ∉ (applyConfig env st cfg rawConfig).events := by
  obtain ⟨mr, pr, br⟩ := env
  rcases rawConfig with _ | raw <;>
    rcases mr with me | mb <;>
      rcases pr with pe | ⟨paths, tch⟩ <;>
        rcases br with be | u <;>
          simp [applyConfig, updateConfigMetrics] <;>
            split <;> simp

/-- C3: when `applyConfig` fails at any stage (serialization, template
persistence, or `Base.ApplyConfig`), it returns `(false, err)` with that
error, the base state — active configuration and matcher-usage metrics —
is untouched, and `applyAndMarkConfig` propagates the same error without
ever invoking `MarkConfigurationAsApplied`. -/
theorem c3_applyConfig_failure_aborts (env : ApplyEnv) (st : AMState)
    (orgID : Int) (hash : String) (cfg : PostableUserConfig)
    (rawConfig : Option Bytes) (markResult : Option String) (e : String)
    (hErr : (applyConfig env st cfg rawConfig).err = some e) :
    (applyConfig env st cfg rawConfig).changed = false ∧
      (applyConfig env st cfg rawConfig).state = st ∧
      applyAndMarkConfig env st orgID hash cfg rawConfig markResult
        = (some e, applyConfig env st cfg rawConfig) ∧
      (∀ o h2, Event.markApplied o h2
          ∉ (applyAndMarkConfig env st orgID hash cfg rawConfig markResult).2.events) := by
  obtain ⟨hch, hst⟩ := applyConfig_err_shape env st cfg rawConfig e hErr
  have hmark : applyAndMarkConfig env st orgID hash cfg rawConfig markResult
      = (some e, applyConfig env st cfg rawConfig) := by
    simp only [applyAndMarkConfig, hErr]
  refine ⟨hch, hst, hmark, fun o h2 => ?_⟩
  rw [hmark]
  exact applyConfig_no_mark env st cfg rawConfig o h2

/-- Closed instance of C3: a failing template persistence aborts the
apply and nothing is marked as applied. -/
theorem c3_applyConfig_failure_aborts_witness :
    (applyConfig envPersistFail stZero sampleCfg (some rawSample)).changed = false ∧
      (applyConfig envPersistFail stZero sampleCfg (some rawSample)).state = stZero ∧
      applyAndMarkConfig envPersistFail stZero 1 "hash-1" sampleCfg (some rawSample) none
        = (some "disk full", applyConfig envPersistFail stZero sampleCfg (some rawSample)) ∧
      (∀ o h2, Event.markApplied o h2
          ∉ (applyAndMarkConfig envPersistFail stZero 1 "hash-1" sampleCfg
              (some rawSample) none).2.events) :=
  c3_applyConfig_failure_aborts envPersistFail stZero 1 "hash-1" sampleCfg
    (some rawSample) none "disk full" rfl

/-- Environment in which the reconstruction path finds the stored
configuration identical to the active one. -/
def envC4 : ApplyEnv :=
  { marshalResult := .ok [5], persistResult := .ok ([], false), baseApplyResult := .ok () }

/-- Base state whose active hash is the digest of the stored bytes. -/
def stC4 : AMState := { configHash := md5Sum [5], metrics := zeroMetrics }

/-- C4 counterexample: a database record that parses successfully and for
which `ApplyConfig` succeeds (returns nil), yet
`Store.MarkConfigurationAsApplied` is never invoked, because the
configuration's hash already matches the active one and the templates
are unchanged, so `applyAndMarkConfig` skips the mark. -/
theorem c4_unchanged_apply_skips_mark :
    (ApplyConfig envC4 stC4 1 (Except.ok sampleCfg)
        ⟨[5], "hash-1"⟩ none).1 = none ∧
      Event.markApplied 1 "hash-1"
        ∉ (ApplyConfig envC4 stC4 1 (Except.ok sampleCfg)
            ⟨[5], "hash-1"⟩ none).2.2 := by
  decide

/-- C4 as amended: on the reconstruction path, a successful apply that
actually changed the configuration invokes
`Store.MarkConfigurationAsApplied` with the record's hash and the org
ID; a successful apply of an unchanged configuration returns nil without
marking anything. -/
theorem c4_successful_changed_apply_marks (env : ApplyEnv) (st : AMState)
    (orgID : Int) (cfg : PostableUserConfig) (dbCfg : AlertConfiguration)
    (markResult : Option String)
    (hok : (applyConfig env st cfg none).err = none) :
    ((applyConfig env st cfg none).changed = true →
        Event.markApplied orgID dbCfg.ConfigurationHash
          ∈ (ApplyConfig env st orgID (Except.ok cfg) dbCfg markResult).2.2) ∧
      ((applyConfig env st cfg none).changed = false →
        (ApplyConfig env st orgID (Except.ok cfg) dbCfg markResult).1 = none ∧
          ∀ o h2, Event.markApplied o h2
            ∉ (ApplyConfig env st orgID (Except.ok cfg) dbCfg markResult).2.2) := by
  constructor
  · intro hch
    rcases markResult with _ | m <;>
      simp [ApplyConfig, applyAndMarkConfig, hok, hch]
  · intro hch
    refine ⟨?_, fun o h2 => ?_⟩
    · simp [ApplyConfig, applyAndMarkConfig, hok, hch]
    · simp [ApplyConfig, applyAndMarkConfig, hok, hch]
      exact applyConfig_no_mark env st cfg none o h2

/-- Environment and state in which the stored configuration differs from
the active one, so the reconstruction path rebuilds and marks. -/
def envC4w : ApplyEnv :=
  { marshalResult := .ok [7], persistResult := .ok ([], false), baseApplyResult := .ok () }

/-- Closed instance of the amended C4: a changed configuration gets
marked as applied by its hash and org ID. -/
theorem c4_successful_changed_apply_marks_witness :
    Event.markApplied 1 "hash-2"
      ∈ (ApplyConfig envC4w stZero 1 (Except.ok sampleCfg)
          ⟨[7], "hash-2"⟩ none).2.2 :=
  (c4_successful_changed_apply_marks envC4w stZero 1 sampleCfg
      ⟨[7], "hash-2"⟩ none rfl).1 rfl

theorem applyConfig_hashedRaw_some (env : ApplyEnv) (st : AMState)
    (cfg : PostableUserConfig) (raw : Bytes) :
    (applyConfig env st cfg (some raw)).hashedRaw = some raw := by
  obtain ⟨mr, pr, br⟩ := env
  rcases pr with pe | ⟨paths, tch⟩ <;>
    rcases br with be | u <;>
      simp [applyConfig, updateConfigMetrics] <;>
        split <;> simp

/-- C7: in `SaveAndApplyConfig` the configuration is serialized exactly
once — the result does not depend on the serializer consulted inside
`applyConfig`, because raw bytes are passed down — and the bytes stored
in the database save command are exactly the bytes whose digest
`applyConfig` compares against the active hash. -/
theorem c7_persisted_bytes_equal_hashed_bytes (mr1 mr2 : Except String Bytes)
    (pr : Except String (List String × Bool)) (br : Except String Unit)
    (st : AMState) (orgID : Int) (cfg : PostableUserConfig) (raw : Bytes)
    (saveDbResult : Option String) :
    SaveAndApplyConfig ⟨mr1, pr, br⟩ st orgID cfg (Except.ok raw) saveDbResult
        = SaveAndApplyConfig ⟨mr2, pr, br⟩ st orgID cfg (Except.ok raw) saveDbResult ∧
      ((SaveAndApplyConfig ⟨mr1, pr, br⟩ st orgID cfg (Except.ok raw)
          saveDbResult).savedCmd.map
            (fun c => c.AlertmanagerConfiguration)) = some raw ∧
      (∀ r, (SaveAndApplyConfig ⟨mr1, pr, br⟩ st orgID cfg (Except.ok raw)
          saveDbResult).applyResult = some r → r.hashedRaw = some raw) := by
  rcases saveDbResult with _ | e
  · refine ⟨rfl, rfl, fun r hr => ?_⟩
    have : r = applyConfig ⟨mr1, pr, br⟩ st cfg (some raw) := by
      simpa [SaveAndApplyConfig] using hr.symm
    rw [this]
    exact applyConfig_hashedRaw_some ⟨mr1, pr, br⟩ st cfg raw
  · exact ⟨rfl, rfl, fun r hr => by simp [SaveAndApplyConfig] at hr⟩

/-- The inner apply result of the closed C7 instance. -/
def c7res : ApplyResult :=
  applyConfig ⟨Except.error "marshal unused", Except.ok ([], false), Except.ok ()⟩
    stZero sampleCfg (some [3, 1])

/-- Closed instance of C7: the saved command carries the hashed bytes,
and the run is independent of the inner serializer oracle. -/
theorem c7_persisted_bytes_equal_hashed_bytes_witness :
    SaveAndApplyConfig ⟨Except.error "marshal unused", Except.ok ([], false), Except.ok ()⟩
        stZero 1 sampleCfg (Except.ok [3, 1]) none
      = SaveAndApplyConfig ⟨Except.ok [9], Except.ok ([], false), Except.ok ()⟩
          stZero 1 sampleCfg (Except.ok [3, 1]) none ∧
    ((SaveAndApplyConfig ⟨Except.error "marshal unused", Except.ok ([], false), Except.ok ()⟩
        stZero 1 sampleCfg (Except.ok [3, 1]) none).savedCmd.map
          (fun c => c.AlertmanagerConfiguration)) = some [3, 1] ∧
    c7res.hashedRaw = some [3, 1] :=
  ⟨(c7_persisted_bytes_equal_hashed_bytes (Except.error "marshal unused") (Except.ok [9])
      (Except.ok ([], false)) (Except.ok ()) stZero 1 sampleCfg [3, 1] none).1,
    (c7_persisted_bytes_equal_hashed_bytes (Except.error "marshal unused") (Except.ok [9])
      (Except.ok ([], false)) (Except.ok ()) stZero 1 sampleCfg [3, 1] none).2.1,
    (c7_persisted_bytes_equal_hashed_bytes (Except.error "marshal unused") (Except.ok [9])
      (Except.ok ([], false)) (Except.ok ()) stZero 1 sampleCfg [3, 1] none).2.2
      c7res rfl⟩

/-- C1: the code discards the combined save-and-apply failure.
`SaveAndApplyDefaultConfig` returns nil although
`Store.SaveAlertmanagerConfigurationWithCallback` failed with a database
write error, because its error branch assigns `outerErr = nil` instead
of propagating the error (contrast `SaveAndApplyConfig`, whose branch
assigns `outerErr = err`). -/
theorem c1_default_save_error_returns_nil :
    (SaveAndApplyDefaultConfig envUnchanged stZero 1 [1, 2]
        (Except.ok sampleCfg) (some "database write failed")).err = none := rfl

end NGAlert
